import Mathlib

/-!
Verification of the Omunotes notebook-generation pipeline (src/unnamed/part_001,
first document: the current `gemini` pipeline with points/code markers and the
quota circuit breaker).

Shallow embedding conventions:
* JavaScript strings are Lean `String`s; `s.includes(p)` is `containsSub s p`,
  `s.substring(0, n)` is `s.take n`, `s.trim()` is `String.trim`.
* Asynchronous network calls are modelled by passing their (post-retry)
  outcomes as explicit inputs; `Date.now()` and `Math.random()` are explicit
  parameters (`now : Nat`, and a list of boolean draws where a draw `true`
  stands for `Math.random() > 0.7`).
* Thrown `Error(msg)` values are modelled as `Except String` with the exact
  message strings thrown by the source.
-/

namespace Omunotes

/-- `containsSub s pat` models JavaScript `s.includes(pat)`. -/
def containsSub (s pat : String) : Bool :=
  go pat.data s.data
where
  go (p : List Char) : List Char → Bool
    | [] => p.isEmpty
    | c :: rest => p.isPrefixOf (c :: rest) || go p rest

/-- JavaScript `s.trim()` (whitespace stripped from both ends), defined
over the character list so it evaluates by kernel reduction. -/
def jsTrim (s : String) : String :=
  String.mk (((s.data.dropWhile Char.isWhitespace).reverse.dropWhile
    Char.isWhitespace).reverse)

/-- JavaScript `s.substring(0, n)` / prefix take. -/
def jsTake (s : String) (n : Nat) : String :=
  String.mk (s.data.take n)

/-- JavaScript `s.slice(n)` / prefix drop. -/
def jsDrop (s : String) (n : Nat) : String :=
  String.mk (s.data.drop n)

/-- JavaScript `s.startsWith(p)`. -/
def jsStartsWith (s p : String) : Bool :=
  p.data.isPrefixOf s.data

/-- JavaScript `s.endsWith(p)`. -/
def jsEndsWith (s p : String) : Bool :=
  p.data.reverse.isPrefixOf s.data.reverse

/-- Drop the last `n` characters (for `slice(0, -1)`). -/
def jsDropRight (s : String) (n : Nat) : String :=
  String.mk (s.data.take (s.data.length - n))

/-- JavaScript `s.toLowerCase()`. -/
def jsToLower (s : String) : String :=
  String.mk (s.data.map Char.toLower)

/-- JavaScript `s.split(sep)` for a one-character separator. -/
def jsSplitChar (sep : Char) (s : String) : List String :=
  go [] s.data
where
  go (acc : List Char) : List Char → List String
    | [] => [String.mk acc.reverse]
    | c :: rest =>
      if c = sep then String.mk acc.reverse :: go [] rest
      else go (c :: acc) rest

/-- Data model: one outline section (`NotesStructure.sections` element). -/
structure NSection where
  heading : String
  subsections : List String
  contentTypes : List String
  imagePrompts : List String
  imagePositions : List Nat
deriving Repr, DecidableEq

/-- Data model: the planner outline (`NotesStructure`). -/
structure NotesStructure where
  title : String
  sections : List NSection
  totalImages : Nat
  contentPrompt : String
deriving Repr, DecidableEq

/-- Data model: `GeneratedImage`. -/
structure GeneratedImage where
  id : String
  prompt : String
  position : Nat
  base64Data : String
  mimeType : String
deriving Repr, DecidableEq

/-- The `type` tag of a `NotebookContent` item. -/
inductive CType where
  | text | image | heading | subheading | points | code
deriving Repr, DecidableEq

/-- Data model: `NotebookContent` (tagged content item). -/
structure NotebookContent where
  type : CType
  content : String
  order : Nat
  imageData : Option String := none
  mimeType : Option String := none
  language : Option String := none
  points : Option (List String) := none
deriving Repr, DecidableEq

/-- Data model: `GeneratedNotebook`. -/
structure GeneratedNotebook where
  id : String
  title : String
  «structure» : NotesStructure
  content : List NotebookContent
  createdAt : String
  totalImages : Nat
  wordCount : Nat
deriving Repr, DecidableEq

/-! ### createFallbackStructure (part_001 lines 183-331) -/

/-- Sections of the definition/explanation family. -/
def fallbackSectionsExplain : List NSection :=
  [ { heading := "Definition and Overview",
      subsections := ["Basic Concepts", "Key Terms", "Background Information"],
      contentTypes := ["paragraph", "points"], imagePrompts := [], imagePositions := [] },
    { heading := "Detailed Explanation",
      subsections := ["Core Principles", "How It Works", "Important Features"],
      contentTypes := ["paragraph", "points"], imagePrompts := [], imagePositions := [] },
    { heading := "Examples and Applications",
      subsections := ["Real-world Examples", "Use Cases", "Practical Applications"],
      contentTypes := ["paragraph", "points"], imagePrompts := [], imagePositions := [] } ]

/-- Sections of the comparison family. -/
def fallbackSectionsCompare : List NSection :=
  [ { heading := "Introduction to Comparison",
      subsections := ["Overview", "Context"],
      contentTypes := ["paragraph"], imagePrompts := [], imagePositions := [] },
    { heading := "Key Differences",
      subsections := ["Major Distinctions", "Comparative Analysis", "Pros and Cons"],
      contentTypes := ["points"], imagePrompts := [], imagePositions := [] },
    { heading := "Conclusion",
      subsections := ["Summary of Differences", "Which to Choose", "Final Thoughts"],
      contentTypes := ["paragraph", "points"], imagePrompts := [], imagePositions := [] } ]

/-- Sections of the tutorial/code family. -/
def fallbackSectionsCode : List NSection :=
  [ { heading := "Introduction",
      subsections := ["Overview", "Prerequisites", "What You'll Learn"],
      contentTypes := ["paragraph", "points"], imagePrompts := [], imagePositions := [] },
    { heading := "Step-by-Step Guide",
      subsections := ["Setup", "Implementation", "Examples"],
      contentTypes := ["points", "code"], imagePrompts := [], imagePositions := [] },
    { heading := "Advanced Topics",
      subsections := ["Best Practices", "Common Issues", "Optimization"],
      contentTypes := ["paragraph", "points", "code"], imagePrompts := [], imagePositions := [] } ]

/-- Sections of the default family. -/
def fallbackSectionsDefault : List NSection :=
  [ { heading := "Introduction",
      subsections := ["Overview", "Background", "Importance"],
      contentTypes := ["paragraph"], imagePrompts := [], imagePositions := [] },
    { heading := "Core Content",
      subsections := ["Key Points", "Detailed Information", "Analysis"],
      contentTypes := ["paragraph", "points"], imagePrompts := [], imagePositions := [] },
    { heading := "Practical Aspects",
      subsections := ["Examples", "Applications", "Implementation"],
      contentTypes := ["paragraph", "points"], imagePrompts := [], imagePositions := [] },
    { heading := "Summary",
      subsections := ["Key Takeaways", "Conclusion", "Next Steps"],
      contentTypes := ["points"], imagePrompts := [], imagePositions := [] } ]

/-- `createFallbackStructure` (part_001 lines 183-331): keyword-classified
canned outline.  Every branch sets `mainTopic = prompt.substring(0, 60)`. -/
def createFallbackStructure (prompt : String) : NotesStructure :=
  let cleanPrompt := jsTrim (jsToLower prompt)
  let mainTopic := jsTake prompt 60
  let sections :=
    if containsSub cleanPrompt "explain" || containsSub cleanPrompt "what is" ||
       containsSub cleanPrompt "define" then
      fallbackSectionsExplain
    else if containsSub cleanPrompt "compare" || containsSub cleanPrompt "difference" ||
       containsSub cleanPrompt "vs" then
      fallbackSectionsCompare
    else if containsSub cleanPrompt "code" || containsSub cleanPrompt "programming" ||
       containsSub cleanPrompt "tutorial" || containsSub cleanPrompt "how to" then
      fallbackSectionsCode
    else
      fallbackSectionsDefault
  { title := "Notes: " ++ mainTopic ++ (if prompt.length > 60 then "..." else ""),
    sections := sections,
    totalImages := 0,
    contentPrompt := "Create comprehensive educational notes about: " ++ prompt ++
      ". Focus on clear explanations, practical examples, and structured learning content." }

/-- C7: For every prompt, `createFallbackStructure` returns one of the four
canned outlines, with 3-4 sections, every section having at least 2
subsections and an empty `imagePrompts`, `totalImages = 0`, and a title
derived from the first 60 characters of the prompt. -/
theorem createFallbackStructure_spec (prompt : String) :
    ((createFallbackStructure prompt).sections = fallbackSectionsExplain ∨
      (createFallbackStructure prompt).sections = fallbackSectionsCompare ∨
      (createFallbackStructure prompt).sections = fallbackSectionsCode ∨
      (createFallbackStructure prompt).sections = fallbackSectionsDefault) ∧
    ((createFallbackStructure prompt).sections.length = 3 ∨
      (createFallbackStructure prompt).sections.length = 4) ∧
    (∀ s ∈ (createFallbackStructure prompt).sections,
      2 ≤ s.subsections.length ∧ s.imagePrompts = []) ∧
    (createFallbackStructure prompt).totalImages = 0 ∧
    (createFallbackStructure prompt).title =
      "Notes: " ++ jsTake prompt 60 ++ (if prompt.length > 60 then "..." else "") := by
  unfold createFallbackStructure
  dsimp only
  split
  · exact ⟨Or.inl rfl, by decide, by decide, rfl, rfl⟩
  · split
    · exact ⟨Or.inr (Or.inl rfl), by decide, by decide, rfl, rfl⟩
    · split
      · exact ⟨Or.inr (Or.inr (Or.inl rfl)), by decide, by decide, rfl, rfl⟩
      · exact ⟨Or.inr (Or.inr (Or.inr rfl)), by decide, by decide, rfl, rfl⟩

/-! ### retryWithBackoff (part_001 lines 334-362) -/

/-- `isRetryableError` classification from `retryWithBackoff`: the error
message marks a server-side overload/unavailability/internal condition. -/
def isRetryableMsg (m : String) : Bool :=
  containsSub m "503" || containsSub m "UNAVAILABLE" || containsSub m "overloaded" ||
  containsSub m "500" || containsSub m "INTERNAL"

/-- The `for (let attempt = 1; attempt <= maxRetries; attempt++)` loop of
`retryWithBackoff`.  `op n` is the outcome of the n-th invocation of
`operation` (1-based); `fuel = maxRetries - attempt + 1` counts the
remaining loop iterations.  Returns the result paired with the number of
invocations of `operation` made.  The backoff delay is timing-only and has
no functional effect, so it is not modelled. -/
def retryLoop {α : Type} (op : Nat → Except String α) (maxRetries : Nat) :
    Nat → Nat → Except String α × Nat
  | 0, _ => (.error "Max retries exceeded", 0)
  | fuel + 1, attempt =>
    match op attempt with
    | .ok v => (.ok v, 1)
    | .error e =>
      if attempt == maxRetries || !isRetryableMsg e then
        (.error e, 1)
      else
        let r := retryLoop op maxRetries fuel (attempt + 1)
        (r.1, r.2 + 1)

/-- `retryWithBackoff(operation, maxRetries = 3, baseDelay = 1000)`:
result together with the number of invocations made. -/
def retryWithBackoff {α : Type} (op : Nat → Except String α)
    (maxRetries : Nat := 3) : Except String α × Nat :=
  retryLoop op maxRetries maxRetries 1

/-- C4: with `maxRetries = 3`: an operation failing twice with a
retryable error and succeeding on the third invocation yields the success
value after exactly 3 invocations; a non-retryable error propagates after
exactly 1 invocation; three retryable failures propagate the last error
after 3 invocations. -/
theorem retryWithBackoff_spec {α : Type} (op1 op2 op3 : Nat → Except String α)
    (v : α) (e1 e2 f g1 g2 g3 : String)
    (h11 : op1 1 = .error e1) (h12 : op1 2 = .error e2) (h13 : op1 3 = .ok v)
    (hr1 : isRetryableMsg e1 = true) (hr2 : isRetryableMsg e2 = true)
    (h21 : op2 1 = .error f) (hf : isRetryableMsg f = false)
    (h31 : op3 1 = .error g1) (h32 : op3 2 = .error g2) (h33 : op3 3 = .error g3)
    (hg1 : isRetryableMsg g1 = true) (hg2 : isRetryableMsg g2 = true) :
    retryWithBackoff op1 3 = (.ok v, 3) ∧
    retryWithBackoff op2 3 = (.error f, 1) ∧
    retryWithBackoff op3 3 = (.error g3, 3) := by
  refine ⟨?_, ?_, ?_⟩
  · simp [retryWithBackoff, retryLoop, h11, h12, h13, hr1, hr2]
  · simp [retryWithBackoff, retryLoop, h21, hf]
  · simp [retryWithBackoff, retryLoop, h31, h32, h33, hg1, hg2]

/-- Concrete witness for `retryWithBackoff_spec`. -/
theorem retryWithBackoff_spec_witness :
    retryWithBackoff
      (fun n => if n = 1 then .error "503 Service Unavailable"
                else if n = 2 then .error "model INTERNAL error"
                else .ok (42 : Nat)) 3 = (.ok 42, 3) ∧
    retryWithBackoff (fun _ => (.error "API_KEY_INVALID" : Except String Nat)) 3 =
      (.error "API_KEY_INVALID", 1) ∧
    retryWithBackoff (fun n => (.error (toString n ++ " UNAVAILABLE") : Except String Nat)) 3 =
      (.error "3 UNAVAILABLE", 3) := by
  exact retryWithBackoff_spec _ _ _ 42 "503 Service Unavailable" "model INTERNAL error"
    "API_KEY_INVALID" "1 UNAVAILABLE" "2 UNAVAILABLE" "3 UNAVAILABLE"
    rfl rfl rfl (by decide) (by decide) rfl (by decide) rfl rfl rfl
    (by decide) (by decide)

/-! ### JSON values and `JSON.parse`

`safeJsonParse` calls the host `JSON.parse`; we embed a JSON parser over
`List Char`.  Number literals are modelled for integer numerals only (the
pipeline's structure payloads and every claim exercise integers); duplicate
object keys are kept in parse order. -/

/-- A parsed JSON value. -/
inductive Json where
  | null
  | bool (b : Bool)
  | num (n : Int)
  | str (s : String)
  | arr (xs : List Json)
  | obj (kvs : List (String × Json))

/-- JSON whitespace. -/
def isJsonWs (c : Char) : Bool :=
  c = ' ' || c = '\t' || c = '\n' || c = '\r'

/-- Skip JSON whitespace. -/
def skipWsL (cs : List Char) : List Char :=
  cs.dropWhile isJsonWs

/-- Value of a hex digit, if any. -/
def hexVal (c : Char) : Option Nat :=
  if '0' ≤ c ∧ c ≤ '9' then some (c.toNat - '0'.toNat)
  else if 'a' ≤ c ∧ c ≤ 'f' then some (c.toNat - 'a'.toNat + 10)
  else if 'A' ≤ c ∧ c ≤ 'F' then some (c.toNat - 'A'.toNat + 10)
  else none

/-- Single-character JSON string escapes. -/
def escChar (c : Char) : Option Char :=
  if c = '"' then some '"'
  else if c = '\\' then some '\\'
  else if c = '/' then some '/'
  else if c = 'b' then some (Char.ofNat 8)
  else if c = 'f' then some (Char.ofNat 12)
  else if c = 'n' then some '\n'
  else if c = 'r' then some '\r'
  else if c = 't' then some '\t'
  else none

/-- Parse the body of a JSON string literal (after the opening quote). -/
def parseStrAux (acc : List Char) : List Char → Option (String × List Char)
  | [] => none
  | c :: rest =>
    if c = '"' then some (String.mk acc.reverse, rest)
    else if c = '\\' then
      match rest with
      | [] => none
      | 'u' :: h1 :: h2 :: h3 :: h4 :: rest3 =>
        match hexVal h1, hexVal h2, hexVal h3, hexVal h4 with
        | some a, some b, some c', some d =>
          parseStrAux (Char.ofNat (((a * 16 + b) * 16 + c') * 16 + d) :: acc) rest3
        | _, _, _, _ => none
      | e :: rest2 =>
        match escChar e with
        | some d => parseStrAux (d :: acc) rest2
        | none => none
    else if c.toNat < 32 then none
    else parseStrAux (c :: acc) rest

/-- Parse a JSON string literal body. -/
def parseStrLit (cs : List Char) : Option (String × List Char) :=
  parseStrAux [] cs

/-- Numeric value of a digit string. -/
def natFromDigits (ds : List Char) : Nat :=
  ds.foldl (fun n c => n * 10 + (c.toNat - '0'.toNat)) 0

/-- Parse a JSON integer numeral (optional minus sign, digits). -/
def parseIntTok (cs : List Char) : Option (Int × List Char) :=
  let (neg, cs1) :=
    match cs with
    | '-' :: t => (true, t)
    | _ => (false, cs)
  match cs1 with
  | [] => none
  | c :: t =>
    if c.isDigit then
      let ds := (c :: t).takeWhile Char.isDigit
      let rest := (c :: t).dropWhile Char.isDigit
      let n : Int := Int.ofNat (natFromDigits ds)
      some (if neg then -n else n, rest)
    else none

mutual

/-- Parse one JSON value; `fuel` bounds the recursion depth (each level of
recursion consumes at least one input character, so `length + 1` suffices). -/
def parseVal (fuel : Nat) (cs : List Char) : Option (Json × List Char) :=
  match fuel with
  | 0 => none
  | f + 1 =>
    match skipWsL cs with
    | [] => none
    | c :: rest =>
      if c = '\x7b' then
        match skipWsL rest with
        | '\x7d' :: r => some (Json.obj [], r)
        | _ => parseObjMembers f [] rest
      else if c = '[' then
        match skipWsL rest with
        | ']' :: r => some (Json.arr [], r)
        | _ => parseArrElems f [] rest
      else if c = '"' then
        (parseStrLit rest).map (fun p => (Json.str p.1, p.2))
      else if c = 't' then
        match rest with
        | 'r' :: 'u' :: 'e' :: r => some (Json.bool true, r)
        | _ => none
      else if c = 'f' then
        match rest with
        | 'a' :: 'l' :: 's' :: 'e' :: r => some (Json.bool false, r)
        | _ => none
      else if c = 'n' then
        match rest with
        | 'u' :: 'l' :: 'l' :: r => some (Json.null, r)
        | _ => none
      else
        (parseIntTok (c :: rest)).map (fun p => (Json.num p.1, p.2))

/-- Parse the members of a JSON object (after `{`, at least one member). -/
def parseObjMembers (fuel : Nat) (acc : List (String × Json)) (cs : List Char) :
    Option (Json × List Char) :=
  match fuel with
  | 0 => none
  | f + 1 =>
    match skipWsL cs with
    | '"' :: rest =>
      match parseStrLit rest with
      | none => none
      | some (k, r1) =>
        match skipWsL r1 with
        | ':' :: r2 =>
          match parseVal f r2 with
          | none => none
          | some (v, r3) =>
            match skipWsL r3 with
            | ',' :: r4 => parseObjMembers f ((k, v) :: acc) r4
            | '\x7d' :: r4 => some (Json.obj ((k, v) :: acc).reverse, r4)
            | _ => none
        | _ => none
    | _ => none

/-- Parse the elements of a JSON array (after `[`, at least one element). -/
def parseArrElems (fuel : Nat) (acc : List Json) (cs : List Char) :
    Option (Json × List Char) :=
  match fuel with
  | 0 => none
  | f + 1 =>
    match parseVal f cs with
    | none => none
    | some (v, r1) =>
      match skipWsL r1 with
      | ',' :: r2 => parseArrElems f (v :: acc) r2
      | ']' :: r2 => some (Json.arr (v :: acc).reverse, r2)
      | _ => none

end

/-- `JSON.parse`: parse a whole string as one JSON value with no trailing
content (fails by returning `none`). -/
def parseJson (s : String) : Option Json :=
  match parseVal (s.length + 1) s.data with
  | some (v, rest) => if skipWsL rest = [] then some v else none
  | none => none

/-! ### safeJsonParse (part_001 lines 125-180) -/

/-- First fence-strip pass: the global regex replace of
`三backtick-json` (with optional trailing newline) and (optionally
newline-preceded) bare triple backticks, scanning left to right without
re-scanning produced text, exactly as JavaScript `String.replace` does. -/
def fencePass1 : Nat → List Char → List Char
  | _, [] => []
  | 0, cs => cs
  | fuel + 1, c :: rest =>
    let cs := c :: rest
    if ("```json\n".data).isPrefixOf cs then fencePass1 fuel (cs.drop 8)
    else if ("```json".data).isPrefixOf cs then fencePass1 fuel (cs.drop 7)
    else if ("\n```".data).isPrefixOf cs then fencePass1 fuel (cs.drop 4)
    else if ("```".data).isPrefixOf cs then fencePass1 fuel (cs.drop 3)
    else c :: fencePass1 fuel rest

/-- Second fence-strip pass: the global replace of bare triple backticks
with optional adjacent newline. -/
def fencePass2 : Nat → List Char → List Char
  | _, [] => []
  | 0, cs => cs
  | fuel + 1, c :: rest =>
    let cs := c :: rest
    if ("```\n".data).isPrefixOf cs then fencePass2 fuel (cs.drop 4)
    else if ("```".data).isPrefixOf cs then fencePass2 fuel (cs.drop 3)
    else if ("\n```".data).isPrefixOf cs then fencePass2 fuel (cs.drop 4)
    else c :: fencePass2 fuel rest

/-- The fence-stripping cleanup applied by `safeJsonParse` before both
parse attempts: both regex replaces, then `trim`. -/
def cleanModelText (t : String) : String :=
  let l1 := fencePass1 t.data.length t.data
  jsTrim (String.mk (fencePass2 l1.length l1))

/-- The best-effort repair of `safeJsonParse`'s fallback path: re-clean the
original text, drop one trailing comma, and append one `\x7d` per
unmatched `\x7b`. -/
def repairModelText (t : String) : String :=
  let f := cleanModelText t
  let f1 := if jsEndsWith f "," then jsDropRight f 1 else f
  let openBraces := (f1.data.filter (fun c => c = '\x7b')).length
  let closeBraces := (f1.data.filter (fun c => c = '\x7d')).length
  f1 ++ String.mk (List.replicate (openBraces - closeBraces) '\x7d')

/-- Error message thrown for an empty/short model response. -/
def emptyResponseMsg : String :=
  "Received empty response from Gemini. Please try again."

/-- Error message thrown when repair also fails to parse. -/
def malformedResponseMsg : String :=
  "Received malformed response from Gemini. Please try again."

/-- `safeJsonParse` (part_001 lines 125-180): reject absent/short input,
try strict parse of the cleaned text, then one repaired retry. -/
def safeJsonParse (text : String) : Except String Json :=
  if text = "" ∨ (jsTrim text).length < 10 then .error emptyResponseMsg
  else
    match parseJson (cleanModelText text) with
    | some v => .ok v
    | none =>
      match parseJson (repairModelText text) with
      | some v => .ok v
      | none => .error malformedResponseMsg

/-- C3 (claim theorem): an input whose trimmed length is under 10 fails with the
EmptyResponse message; every failure of `safeJsonParse` carries one of the
two domain messages (never an underlying parser error); and the truncated
input `\x7b"a": 1, "b": 2` is repaired by the brace-balancing path and
parses to the object with a = 1, b = 2. -/
theorem safeJsonParse_spec (t t2 e2 : String)
    (h1 : (jsTrim t).length < 10)
    (h2 : safeJsonParse t2 = .error e2) :
    safeJsonParse t = .error emptyResponseMsg ∧
    (e2 = emptyResponseMsg ∨ e2 = malformedResponseMsg) ∧
    safeJsonParse "\x7b\"a\": 1, \"b\": 2" =
      .ok (.obj [("a", .num 1), ("b", .num 2)]) := by
  refine ⟨?_, ?_, ?_⟩
  · unfold safeJsonParse
    rw [if_pos (Or.inr h1)]
  · unfold safeJsonParse at h2
    split at h2
    · injection h2 with h
      exact Or.inl h.symm
    · split at h2
      · exact absurd h2 (by simp)
      · split at h2
        · exact absurd h2 (by simp)
        · injection h2 with h
          exact Or.inr h.symm
  · rfl

/-- Concrete witness for `safeJsonParse_spec`. -/
theorem safeJsonParse_spec_witness :
    safeJsonParse "" = .error emptyResponseMsg ∧
    (emptyResponseMsg = emptyResponseMsg ∨ emptyResponseMsg = malformedResponseMsg) ∧
    safeJsonParse "\x7b\"a\": 1, \"b\": 2" =
      .ok (.obj [("a", .num 1), ("b", .num 2)]) :=
  safeJsonParse_spec "" "" emptyResponseMsg (by decide) rfl

/-! ### analyzePromptAndGenerateStructure (part_001 lines 365-492) -/

/-- The TypeError thrown by `parsedStructure.title` when the parsed value
is `null` (part_001 line 462).  The exact wording is host-engine
dependent; for classification all that matters is that it contains none
of the fallback-trigger or error-reword substrings, which holds for the
standard wordings. -/
def nullAccessMsg (k : String) : String :=
  "Cannot read property '" ++ k ++ "' of null"

/-- JavaScript property access `j[k]` on a parsed JSON value: a `null`
receiver throws a TypeError; on any other non-object receiver the access
yields `undefined`, modelled as `null` (both are falsy). -/
def jsGet (j : Json) (k : String) : Except String Json :=
  match j with
  | .null => .error (nullAccessMsg k)
  | .obj kvs => .ok (go kvs)
  | _ => .ok .null
where
  go : List (String × Json) → Json
    | [] => .null
    | (k', v) :: t => if k' = k then v else go t

/-- JavaScript truthiness of a JSON value. -/
def jsTruthy : Json → Bool
  | .null => false
  | .bool b => b
  | .num n => n != 0
  | .str s => s != ""
  | .arr _ => true
  | .obj _ => true

/-- `Array.isArray`. -/
def jsIsArray : Json → Bool
  | .arr _ => true
  | _ => false

/-- Error thrown when the structure call returns no text (line 454). -/
def noStructureMsg : String :=
  "No structure generated. Please try a different prompt."

/-- Error thrown when the parsed structure fails validation (line 467). -/
def invalidFormatMsg : String :=
  "Invalid response format from Gemini. Please try again."

/-- The structure validation of `analyzePromptAndGenerateStructure`
(lines 461-468), with JavaScript's short-circuit order:
`!parsedStructure.title || !parsedStructure.sections ||
!Array.isArray(parsedStructure.sections)` — the `.title` access throws a
TypeError on a parsed `null`, a falsy title skips the `.sections` access,
and otherwise a falsy or non-array `sections` fails validation. -/
def validateStructureFormat (parsed : Json) : Except String Json :=
  match jsGet parsed "title" with
  | .error e => .error e
  | .ok titleV =>
    if jsTruthy titleV = false then .error invalidFormatMsg
    else
      match jsGet parsed "sections" with
      | .error e => .error e
      | .ok sectionsV =>
        if jsTruthy sectionsV = false || jsIsArray sectionsV = false then
          .error invalidFormatMsg
        else .ok parsed

/-- The substring test of the catch block (lines 480-485) deciding whether
to substitute the fallback outline. -/
def fallbackTriggerMsg (e : String) : Bool :=
  containsSub e "malformed response" || containsSub e "empty response" ||
    containsSub e "Invalid response format"

/-- `handleApiError` (part_001 lines 75-122) as a message transformer: the
function always rethrows, so it is the message of the propagated error.
(The `error.name === "SyntaxError"` disjunct is not modelled: every error
in this embedding is an `Error` carrying only a message.) -/
def handleApiErrorMsg (e : String) : String :=
  if containsSub e "JSON Parse error" then
    "Received incomplete response from Gemini. Please try again."
  else if containsSub e "API_KEY_INVALID" then
    "Invalid API key. Please check your Gemini API key in Settings."
  else if containsSub e "QUOTA_EXCEEDED" || containsSub e "exceeded your current quota" ||
      containsSub e "RESOURCE_EXHAUSTED" || containsSub e "429" then
    "API quota exceeded. Please try again later or upgrade your Gemini API plan."
  else if containsSub e "PERMISSION_DENIED" then
    "Permission denied. Please check your API key permissions."
  else if containsSub e "503" || containsSub e "UNAVAILABLE" || containsSub e "overloaded" then
    "Gemini servers are currently overloaded. Please try again in a few minutes."
  else if containsSub e "500" || containsSub e "INTERNAL" then
    "Gemini server error. Please try again later."
  else e

/-- Result of the Structure Planner: either the model's parsed outline or
the heuristic fallback outline. -/
inductive StructureResult where
  | parsed (j : Json)
  | fallback (s : NotesStructure)

/-- The body of the `try` block of `analyzePromptAndGenerateStructure`:
`callText` is the outcome of the (retry-wrapped) structure call, carrying
`response.text` (`""` models absent text) on success. -/
def analyzeInner (callText : Except String String) : Except String Json :=
  match callText with
  | .error e => .error e
  | .ok t =>
    if t = "" then .error noStructureMsg
    else
      match safeJsonParse t with
      | .error e => .error e
      | .ok parsed => validateStructureFormat parsed

/-- `analyzePromptAndGenerateStructure` (part_001 lines 365-492): the try
body plus the catch block's fallback-or-propagate policy. -/
def analyzePromptAndGenerateStructure (prompt : String)
    (callText : Except String String) : Except String StructureResult :=
  match analyzeInner callText with
  | .ok j => .ok (.parsed j)
  | .error e =>
    if fallbackTriggerMsg e then .ok (.fallback (createFallbackStructure prompt))
    else .error (handleApiErrorMsg e)

/-- The catch block's rewording never produces one of the three
fallback-trigger messages out of an error that was not one. -/
theorem fallbackTriggerMsg_handleApiErrorMsg (e : String)
    (h : fallbackTriggerMsg e = false) :
    fallbackTriggerMsg (handleApiErrorMsg e) = false := by
  unfold handleApiErrorMsg
  repeat' split
  all_goals first
    | decide
    | exact h

/-- C2 (counterexample): with the model text absent, the Structure Planner
propagates a "No structure generated" error instead of returning the
heuristic fallback outline, refuting the claim that an EmptyResponse
classification with absent text yields the fallback. -/
theorem analyzeStructure_absent_text_cex :
    analyzePromptAndGenerateStructure "photosynthesis" (.ok "") =
      .error noStructureMsg ∧
    analyzePromptAndGenerateStructure "photosynthesis" (.ok "") ≠
      .ok (.fallback (createFallbackStructure "photosynthesis")) := by
  refine ⟨rfl, ?_⟩
  intro h
  rw [show analyzePromptAndGenerateStructure "photosynthesis" (.ok "") =
    .error noStructureMsg from rfl] at h
  exact Except.noConfusion h

/-- C2 (amended claim): the Structure Planner returns the heuristic
fallback outline whenever the failure is EmptyResponse with the model text
present but under the 10-character trimmed minimum, MalformedResponse, or
InvalidStructureFormat (the parsed value is not `null` and lacks a truthy
title or a truthy sections array); absent model text instead raises a
distinct "No structure generated" error; a response parsing to `null`
raises the `.title` property-access TypeError, which propagates; no
propagated error carries one of the three fallback-trigger
classifications; and every other error propagates (as the error the
API-error classifier rethrows). -/
theorem analyzeStructure_fallback_policy
    (prompt t t3 t4 t6 e5 : String) (j4 : Json) (c : Except String String)
    (h1 : t ≠ "") (h2 : (jsTrim t).length < 10)
    (h3 : safeJsonParse t3 = .error malformedResponseMsg)
    (h4 : safeJsonParse t4 = .ok j4)
    (h4b : validateStructureFormat j4 = .error invalidFormatMsg)
    (h6 : safeJsonParse t6 = .ok Json.null)
    (h5 : fallbackTriggerMsg e5 = false) :
    analyzePromptAndGenerateStructure prompt (.ok "") = .error noStructureMsg ∧
    analyzePromptAndGenerateStructure prompt (.ok t) =
      .ok (.fallback (createFallbackStructure prompt)) ∧
    analyzePromptAndGenerateStructure prompt (.ok t3) =
      .ok (.fallback (createFallbackStructure prompt)) ∧
    analyzePromptAndGenerateStructure prompt (.ok t4) =
      .ok (.fallback (createFallbackStructure prompt)) ∧
    analyzePromptAndGenerateStructure prompt (.ok t6) =
      .error (nullAccessMsg "title") ∧
    analyzePromptAndGenerateStructure prompt (.error e5) =
      .error (handleApiErrorMsg e5) ∧
    (∀ e, analyzePromptAndGenerateStructure prompt c = .error e →
      fallbackTriggerMsg e = false) := by
  have hsp : safeJsonParse t = .error emptyResponseMsg := by
    unfold safeJsonParse
    rw [if_pos (Or.inr h2)]
  have ht3 : t3 ≠ "" := by
    intro he
    rw [he, show safeJsonParse "" = .error emptyResponseMsg from rfl] at h3
    injection h3 with h
    exact absurd h (by decide)
  have ht4 : t4 ≠ "" := by
    intro he
    rw [he, show safeJsonParse "" = .error emptyResponseMsg from rfl] at h4
    exact Except.noConfusion h4
  have ht6 : t6 ≠ "" := by
    intro he
    rw [he, show safeJsonParse "" = .error emptyResponseMsg from rfl] at h6
    exact Except.noConfusion h6
  refine ⟨rfl, ?_, ?_, ?_, ?_, ?_, ?_⟩
  · unfold analyzePromptAndGenerateStructure analyzeInner
    dsimp only
    rw [if_neg h1, hsp]
    dsimp only
    rw [if_pos (by decide : fallbackTriggerMsg emptyResponseMsg = true)]
  · unfold analyzePromptAndGenerateStructure analyzeInner
    dsimp only
    rw [if_neg ht3, h3]
    dsimp only
    rw [if_pos (by decide : fallbackTriggerMsg malformedResponseMsg = true)]
  · unfold analyzePromptAndGenerateStructure analyzeInner
    dsimp only
    rw [if_neg ht4, h4]
    dsimp only
    rw [h4b]
    dsimp only
    rw [if_pos (by decide : fallbackTriggerMsg invalidFormatMsg = true)]
  · unfold analyzePromptAndGenerateStructure analyzeInner
    dsimp only
    rw [if_neg ht6, h6]
    rfl
  · unfold analyzePromptAndGenerateStructure analyzeInner
    dsimp only
    rw [if_neg (by rw [h5]; exact Bool.false_ne_true)]
  · intro e he
    unfold analyzePromptAndGenerateStructure at he
    split at he
    · exact Except.noConfusion he
    · split at he
      · exact Except.noConfusion he
      · injection he with h
        subst h
        rename_i e' _ hnt
        exact fallbackTriggerMsg_handleApiErrorMsg e' (Bool.of_not_eq_true hnt)

/-- Concrete witness for `analyzeStructure_fallback_policy`; the
parsed-null case uses a fenced `null` response, whose TypeError
propagates while the other failure classes fall back. -/
theorem analyzeStructure_fallback_policy_witness :
    analyzePromptAndGenerateStructure "explain x" (.ok " ") =
      .ok (.fallback (createFallbackStructure "explain x")) ∧
    analyzePromptAndGenerateStructure "explain x" (.ok "\x7b\"aaaa\": ,") =
      .ok (.fallback (createFallbackStructure "explain x")) ∧
    analyzePromptAndGenerateStructure "explain x" (.ok "\x7b\"aaaa\": 1\x7d") =
      .ok (.fallback (createFallbackStructure "explain x")) ∧
    analyzePromptAndGenerateStructure "explain x" (.ok "```json\nnull\n```") =
      .error (nullAccessMsg "title") ∧
    analyzePromptAndGenerateStructure "explain x" (.error "RESOURCE_EXHAUSTED") =
      .error (handleApiErrorMsg "RESOURCE_EXHAUSTED") := by
  have h := analyzeStructure_fallback_policy "explain x" " " "\x7b\"aaaa\": ,"
    "\x7b\"aaaa\": 1\x7d" "```json\nnull\n```" "RESOURCE_EXHAUSTED"
    (.obj [("aaaa", .num 1)]) (.ok "")
    (by decide) (by decide) rfl rfl rfl rfl (by decide)
  exact ⟨h.2.1, h.2.2.1, h.2.2.2.1, h.2.2.2.2.1, h.2.2.2.2.2.1⟩

/-! ### parseContentToStructure (part_001 lines 852-1045) -/

/-- The "valid image" predicate used throughout (not a placeholder
sentinel). -/
def isValidImage (img : GeneratedImage) : Bool :=
  img.mimeType != "image/placeholder" && !(jsStartsWith img.base64Data "placeholder_")

/-- Regex test `/^\d+\.\s/` (a traditional numbered-list line). -/
def numberedMark (s : String) : Bool :=
  let ds := s.data.takeWhile Char.isDigit
  let rest := s.data.dropWhile Char.isDigit
  !ds.isEmpty &&
    (match rest with
     | '.' :: w :: _ => w.isWhitespace
     | _ => false)

/-- Anchored replace of a literal marker prefix followed by `\s*`. -/
def stripMarkerLit (pre : String) (s : String) : String :=
  if jsStartsWith s pre then
    String.mk ((s.data.drop pre.data.length).dropWhile Char.isWhitespace)
  else s

/-- Anchored replace of `/^[•\-*]\s*/`. -/
def stripBulletChar (s : String) : String :=
  match s.data with
  | [] => s
  | c :: r =>
    if c = '•' || c = '-' || c = '*' then String.mk (r.dropWhile Char.isWhitespace)
    else s

/-- Anchored replace of `/^\d+\.\s*/`. -/
def stripNumberDot (s : String) : String :=
  let ds := s.data.takeWhile Char.isDigit
  let rest := s.data.dropWhile Char.isDigit
  if !ds.isEmpty then
    match rest with
    | '.' :: r => String.mk (r.dropWhile Char.isWhitespace)
    | _ => s
  else s

/-- `cleanPoint` (lines 957-961): the four anchored replaces in sequence. -/
def cleanPoint (s : String) : String :=
  stripNumberDot (stripBulletChar (stripMarkerLit "NUMBERED_POINT:" (stripMarkerLit "BULLET_POINT:" s)))

/-- A trimmed line that opens or continues a points run (custom markers or
traditional markdown bullets/numbered items, lines 915-929). -/
def isPointLine (c : String) : Bool :=
  jsStartsWith c "BULLET_POINT:" || jsStartsWith c "NUMBERED_POINT:" ||
  jsStartsWith c "•" || jsStartsWith c "-" || jsStartsWith c "*" || numberedMark c

/-- The inner points-run loop (lines 933-967): skip blank lines, collect
contiguous marker lines stripped of their prefixes, stop at the first
non-matching non-blank line; returns the collected points and the
remaining lines. -/
def takePoints : List String → List String × List String
  | [] => ([], [])
  | l :: rest =>
    let c := jsTrim l
    if c = "" then takePoints rest
    else if isPointLine c then
      let r := takePoints rest
      (cleanPoint c :: r.1, r.2)
    else ([], l :: rest)

/-- Heading classification (lines 981-983): the trimmed line contains a
section heading case-insensitively. -/
def isMainHeading (st : NotesStructure) (t : String) : Bool :=
  st.sections.any (fun s => containsSub (jsToLower t) (jsToLower s.heading))

/-- Subheading classification (lines 985-989). -/
def isSubHeading (st : NotesStructure) (t : String) : Bool :=
  st.sections.any (fun s => s.subsections.any (fun sub => containsSub (jsToLower t) (jsToLower sub)))

/-- The `image` content item spliced for one generated image. -/
def mkImageItem (im : GeneratedImage) (order : Nat) : NotebookContent :=
  { type := .image, content := im.prompt, order := order,
    imageData := some im.base64Data, mimeType := some im.mimeType }

/-- The trailing loop (lines 1032-1042): append all still-unused valid
images as `image` items. -/
def appendImages : List GeneratedImage → Nat → List NotebookContent
  | [], _ => []
  | im :: t, order => mkImageItem im order :: appendImages t (order + 1)

/-- `codeLines.join("\n")`. -/
def joinLines : List String → String
  | [] => ""
  | [l] => l
  | l :: rest => l ++ "\n" ++ joinLines rest

/-- The main scanning loop of `parseContentToStructure` (lines 869-1029).
`imgs` is the not-yet-used suffix of the valid images (the source's
`validImages`/`imageIndex` cursor pair); `rand` is the stream of
`Math.random() > 0.7` draws, consumed only when an unused image remains
(an exhausted stream models drawing `false`); `order` is the counter.
`fuel` bounds the iteration count; it is called with `fuel = lines.length`
and every iteration consumes at least one line, so the fuel-exhausted arm
(which finalises like the end of the loop) is never reached. -/
def pcGo (st : NotesStructure) : Nat → List String → List GeneratedImage →
    List Bool → Nat → List NotebookContent
  | _, [], imgs, _, order => appendImages imgs order
  | 0, _ :: _, imgs, _, order => appendImages imgs order
  | fuel + 1, line :: rest, imgs, rand, order =>
    let t := jsTrim line
    if t = "" then pcGo st fuel rest imgs rand order
    else if jsStartsWith t "CODE_BLOCK_START:" || jsStartsWith t "```" then
      let custom := jsStartsWith t "CODE_BLOCK_START:"
      let language :=
        if custom then
          let l := jsTrim (jsDrop t 17)
          if l = "" then "text" else l
        else
          let l := jsTrim (jsDrop t 3)
          if l = "" then "text" else l
      let endMarker := if custom then "CODE_BLOCK_END" else "```"
      let codeLines := rest.takeWhile (fun l => !(jsStartsWith (jsTrim l) endMarker))
      let rest2 := (rest.dropWhile (fun l => !(jsStartsWith (jsTrim l) endMarker))).drop 1
      if codeLines = [] then pcGo st fuel rest2 imgs rand order
      else
        { type := .code, content := joinLines codeLines, order := order,
          language := some language } :: pcGo st fuel rest2 imgs rand (order + 1)
    else if isPointLine t then
      let r := takePoints rest
      { type := .points, content := "Points", order := order,
        points := some (cleanPoint t :: r.1) } :: pcGo st fuel r.2 imgs rand (order + 1)
    else if isMainHeading st t then
      { type := .heading, content := t, order := order } ::
        pcGo st fuel rest imgs rand (order + 1)
    else if isSubHeading st t then
      { type := .subheading, content := t, order := order } ::
        pcGo st fuel rest imgs rand (order + 1)
    else
      match imgs with
      | [] =>
        { type := .text, content := t, order := order } ::
          pcGo st fuel rest [] rand (order + 1)
      | im :: imt =>
        match rand with
        | [] =>
          { type := .text, content := t, order := order } ::
            pcGo st fuel rest (im :: imt) [] (order + 1)
        | b :: rs =>
          if b then
            { type := .text, content := t, order := order } ::
              mkImageItem im (order + 1) ::
              pcGo st fuel rest imt rs (order + 2)
          else
            { type := .text, content := t, order := order } ::
              pcGo st fuel rest (im :: imt) rs (order + 1)

/-- `parseContentToStructure` (part_001 lines 852-1045). -/
def parseContentToStructure (content : String) (images : List GeneratedImage)
    (st : NotesStructure) (rand : List Bool) : List NotebookContent :=
  let lines := jsSplitChar '\n' content
  let validImages := images.filter isValidImage
  pcGo st lines.length lines validImages rand 0

/-- Orders of the trailing image items are consecutive from `order`. -/
theorem appendImages_orders (imgs : List GeneratedImage) (order : Nat) :
    (appendImages imgs order).map NotebookContent.order =
      List.range' order (appendImages imgs order).length := by
  induction imgs generalizing order with
  | nil => rfl
  | cons im t ih => simp [appendImages, mkImageItem, List.range', ih]

/-- Every item produced by `pcGo` carries order `order`, `order + 1`, ...
in output sequence. -/
theorem pcGo_orders (st : NotesStructure) (fuel : Nat) :
    ∀ (lines : List String) (imgs : List GeneratedImage) (rand : List Bool) (order : Nat),
    (pcGo st fuel lines imgs rand order).map NotebookContent.order =
      List.range' order (pcGo st fuel lines imgs rand order).length := by
  induction fuel with
  | zero =>
    intro lines imgs rand order
    cases lines with
    | nil => exact appendImages_orders imgs order
    | cons l rest => exact appendImages_orders imgs order
  | succ f ih =>
    intro lines imgs rand order
    cases lines with
    | nil => exact appendImages_orders imgs order
    | cons line rest =>
      rw [pcGo.eq_def]
      dsimp only
      repeat' split
      all_goals simp [List.range', mkImageItem, ih]

/-- Projection of an item to its image payload fields. -/
def imageProj (c : NotebookContent) : String × Option String × Option String :=
  (c.content, c.imageData, c.mimeType)

/-- The trailing image items are exactly the unused images, in order. -/
theorem appendImages_images (imgs : List GeneratedImage) (order : Nat) :
    ((appendImages imgs order).filter (fun c => c.type == CType.image)).map imageProj =
      imgs.map (fun im => (im.prompt, some im.base64Data, some im.mimeType)) := by
  induction imgs generalizing order with
  | nil => rfl
  | cons im t ih => simp [appendImages, mkImageItem, imageProj, ih]

/-- The `image` items produced by `pcGo`, in output order, are exactly the
unused images `imgs`, in input order: each appears exactly once. -/
theorem pcGo_images (st : NotesStructure) (fuel : Nat) :
    ∀ (lines : List String) (imgs : List GeneratedImage) (rand : List Bool) (order : Nat),
    ((pcGo st fuel lines imgs rand order).filter (fun c => c.type == CType.image)).map imageProj =
      imgs.map (fun im => (im.prompt, some im.base64Data, some im.mimeType)) := by
  induction fuel with
  | zero =>
    intro lines imgs rand order
    cases lines with
    | nil => exact appendImages_images imgs order
    | cons l rest => exact appendImages_images imgs order
  | succ f ih =>
    intro lines imgs rand order
    cases lines with
    | nil => exact appendImages_images imgs order
    | cons line rest =>
      rw [pcGo.eq_def]
      dsimp only
      repeat' split
      all_goals simp [mkImageItem, imageProj, ih]

/-- C5: for every input text, image list, outline and outcome of the
random draws, the Content Structurer's items carry order values exactly
`0, 1, ..., n-1` in output sequence (hence strictly increasing with no
duplicates), and the `image` items are exactly the valid input images,
each exactly once, in input order (images not spliced during the scan are
appended at the end by construction of the trailing loop). -/
theorem parseContentToStructure_spec (content : String)
    (images : List GeneratedImage) (st : NotesStructure) (rand : List Bool) :
    (parseContentToStructure content images st rand).map NotebookContent.order =
      List.range (parseContentToStructure content images st rand).length ∧
    ((parseContentToStructure content images st rand).filter
        (fun c => c.type == CType.image)).map imageProj =
      (images.filter isValidImage).map
        (fun im => (im.prompt, some im.base64Data, some im.mimeType)) := by
  constructor
  · rw [List.range_eq_range']
    exact pcGo_orders st _ _ _ _ _
  · exact pcGo_images st _ _ _ _ _

/-- A fixed outline whose headings/subsections match none of the test
lines below. -/
def testOutline : NotesStructure :=
  { title := "T",
    sections := [ { heading := "Zebra", subsections := ["Quark"],
                    contentTypes := [], imagePrompts := [], imagePositions := [] } ],
    totalImages := 0, contentPrompt := "" }

/-- C8: the bullet-run example: two custom bullet lines followed by a
plain line produce one `points` item with the stripped points in order
followed by one `text` item, with orders 0 and 1; blank lines inside a
run are skipped without terminating it. -/
theorem contentStructurer_points_example :
    parseContentToStructure "BULLET_POINT: first\nBULLET_POINT: second\nplain text"
        [] testOutline [] =
      [ { type := .points, content := "Points", order := 0,
          points := some ["first", "second"] },
        { type := .text, content := "plain text", order := 1 } ] ∧
    parseContentToStructure "BULLET_POINT: a\n\nBULLET_POINT: b\nplain text"
        [] testOutline [] =
      [ { type := .points, content := "Points", order := 0,
          points := some ["a", "b"] },
        { type := .text, content := "plain text", order := 1 } ] :=
  ⟨rfl, rfl⟩

/-- C9: a `CODE_BLOCK_START:python` / `CODE_BLOCK_END` pair wrapping two
lines yields exactly one `code` item whose content is the two interior
lines joined by a newline and whose language is `"python"`; interior
lines are consumed verbatim and never reclassified (here a would-be
bullet line and a would-be heading line stay inside the code body). -/
theorem contentStructurer_code_example :
    parseContentToStructure "CODE_BLOCK_START:python\nx = 1\ny = 2\nCODE_BLOCK_END"
        [] testOutline [] =
      [ { type := .code, content := "x = 1\ny = 2", order := 0,
          language := some "python" } ] ∧
    parseContentToStructure "CODE_BLOCK_START:python\nBULLET_POINT: x\nZebra\nCODE_BLOCK_END"
        [] testOutline [] =
      [ { type := .code, content := "BULLET_POINT: x\nZebra", order := 0,
          language := some "python" } ] :=
  ⟨rfl, rfl⟩

/-- C10: an opening code marker immediately followed by its end marker (a
block with zero interior lines) emits no content item at all — the code
item is pushed only when at least one interior line was captured — for
both the custom markers and bare triple backticks. -/
theorem contentStructurer_empty_code_block :
    parseContentToStructure "CODE_BLOCK_START:python\nCODE_BLOCK_END\nhello"
        [] testOutline [] =
      [ { type := .text, content := "hello", order := 0 } ] ∧
    parseContentToStructure "```\n```\nhello" [] testOutline [] =
      [ { type := .text, content := "hello", order := 0 } ] :=
  ⟨rfl, rfl⟩

/-! ### generateImages (part_001 lines 495-669) -/

/-- Inline binary payload of a response part (`inlineData`). -/
structure InlineData where
  data : String
  mimeType : Option String
deriving Repr, DecidableEq

/-- One response content part. -/
structure RespPart where
  inlineData : Option InlineData
deriving Repr, DecidableEq

/-- Outcome of one (retry-wrapped) image-generation call:
`ok parts` models a resolved response, with
`response?.candidates?.[0]?.content?.parts` collapsed to the optional part
list; `failure msg` models a rejected call. -/
inductive CallOutcome where
  | ok (parts : Option (List RespPart))
  | failure (msg : String)

/-- `IMAGE_GENERATION_CONFIG.ENABLE_QUOTA_PROTECTION`. -/
def enableQuotaProtection : Bool := true

/-- The quota-exhaustion signature test (lines 615-618). -/
def isQuotaMsg (m : String) : Bool :=
  containsSub m "QUOTA_EXCEEDED" || containsSub m "exceeded your current quota" ||
    containsSub m "RESOURCE_EXHAUSTED" || containsSub m "429"

/-- `mimeType || "image/png"`. -/
def mimeOr (m : Option String) : String :=
  match m with
  | none => "image/png"
  | some s => if s = "" then "image/png" else s

/-- Scan the response parts for the first holding inline image data and
build the `GeneratedImage` record (lines 573-604); `none` when the
response has no parts or no part holds data, in which case the prompt is
skipped without recording a placeholder. -/
def findInlineImage (parts : Option (List RespPart)) (i : Nat) (prompt : String)
    (now : Nat) : Option GeneratedImage :=
  match parts with
  | none => none
  | some ps => go ps
where
  go : List RespPart → Option GeneratedImage
    | [] => none
    | p :: rest =>
      match p.inlineData with
      | some d =>
        if d.data ≠ "" then
          some { id := "img_" ++ toString now ++ "_" ++ toString i,
                 prompt := prompt, position := i,
                 base64Data := "data:" ++ mimeOr d.mimeType ++ ";base64," ++ d.data,
                 mimeType := mimeOr d.mimeType }
        else go rest
      | none => go rest

/-- Instrumented result of `generateImages`: the returned image list, the
indices of the prompts for which a generation call was issued, and the
final quota-exhausted flag. -/
structure GenImagesResult where
  images : List GeneratedImage
  attempted : List Nat
  quotaExhausted : Bool
deriving Repr, DecidableEq

/-- The per-prompt loop of `generateImages` (lines 511-643): `oc i` is the
outcome of the call for prompt index `i`; `remaining` counts the prompts
left.  A quota-signature failure sets the flag and stops (the `break`);
any other failure (permission/auth/invalid-key or a generic error) skips
only that prompt.  The inter-request pacing delay is timing-only and not
modelled. -/
def genLoop (oc : Nat → CallOutcome) (ps : List String) (now : Nat) :
    Nat → Nat → GenImagesResult
  | _, 0 => ⟨[], [], false⟩
  | i, remaining + 1 =>
    match oc i with
    | .ok parts =>
      let r := genLoop oc ps now (i + 1) remaining
      ⟨(findInlineImage parts i (ps.getD i "") now).toList ++ r.images,
        i :: r.attempted, r.quotaExhausted⟩
    | .failure msg =>
      if enableQuotaProtection && isQuotaMsg msg then ⟨[], [i], true⟩
      else
        let r := genLoop oc ps now (i + 1) remaining
        ⟨r.images, i :: r.attempted, r.quotaExhausted⟩

/-- `generateImages` (part_001 lines 495-669): prompts capped at
`MAX_IMAGES_PER_NOTEBOOK = 5`, then the per-prompt loop from index 0. -/
def generateImages (oc : Nat → CallOutcome) (prompts : List String)
    (now : Nat) : GenImagesResult :=
  let limitedPrompts := prompts.take 5
  genLoop oc limitedPrompts now 0 limitedPrompts.length

/-- Shifting a consecutive index range by one start position. -/
theorem range_map_add (i k : Nat) :
    (List.range (k + 1)).map (fun j => i + j) =
      i :: (List.range k).map (fun j => i + 1 + j) := by
  rw [List.range_succ_eq_map, List.map_cons, List.map_map]
  have hf : ((fun j => i + j) ∘ Nat.succ) = (fun j => i + 1 + j) := by
    funext j
    simp only [Function.comp_apply]
    omega
  rw [hf, Nat.add_zero]

/-- Quota breaker: a quota-signature failure at relative position `k`
(with no earlier quota failure) sets the flag, attempts exactly the
prompts up to `k`, and yields at most `k` images. -/
theorem genLoop_quota (oc : Nat → CallOutcome) (ps : List String) (now : Nat) :
    ∀ (k i rem : Nat), k < rem →
    (∃ m, oc (i + k) = .failure m ∧ isQuotaMsg m = true) →
    (∀ j, j < k → ∀ m, oc (i + j) = .failure m → isQuotaMsg m = false) →
    (genLoop oc ps now i rem).quotaExhausted = true ∧
    (genLoop oc ps now i rem).attempted = (List.range (k + 1)).map (fun j => i + j) ∧
    (genLoop oc ps now i rem).images.length ≤ k := by
  intro k
  induction k with
  | zero =>
    intro i rem hrem hq _
    obtain ⟨m, hm, hqm⟩ := hq
    simp only [Nat.add_zero] at hm
    cases rem with
    | zero => omega
    | succ r =>
      rw [genLoop, hm]
      dsimp only
      rw [if_pos (by simp [enableQuotaProtection, hqm])]
      refine ⟨rfl, ?_, by simp⟩
      rw [show List.range (0 + 1) = [0] from rfl]
      simp
  | succ k ih =>
    intro i rem hrem hq hprev
    cases rem with
    | zero => omega
    | succ r =>
      have hrec := ih (i + 1) r (by omega)
        (by
          obtain ⟨m, hm, hqm⟩ := hq
          exact ⟨m, by rw [show i + 1 + k = i + (k + 1) by omega]; exact hm, hqm⟩)
        (by
          intro j hj m hm
          exact hprev (j + 1) (by omega) m (by rw [show i + (j + 1) = i + 1 + j by omega]; exact hm))
      cases hoc : oc i with
      | ok parts =>
        rw [genLoop, hoc]
        dsimp only
        refine ⟨hrec.1, ?_, ?_⟩
        · rw [range_map_add]
          simp [hrec.2.1]
        · have := hrec.2.2
          simp only [List.length_append]
          have hlen : (findInlineImage parts i (ps.getD i "") now).toList.length ≤ 1 := by
            cases findInlineImage parts i (ps.getD i "") now <;> simp
          omega
      | failure m =>
        have hnq : isQuotaMsg m = false := hprev 0 (by omega) m (by simpa using hoc)
        rw [genLoop, hoc]
        dsimp only
        rw [if_neg (by simp [hnq])]
        refine ⟨hrec.1, ?_, by simpa using Nat.le_succ_of_le hrec.2.2⟩
        rw [range_map_add]
        simp [hrec.2.1]

/-- Without any quota-signature failure, every prompt is attempted. -/
theorem genLoop_no_quota (oc : Nat → CallOutcome) (ps : List String) (now : Nat) :
    ∀ (rem i : Nat),
    (∀ j, j < rem → ∀ m, oc (i + j) = .failure m → isQuotaMsg m = false) →
    (genLoop oc ps now i rem).attempted = (List.range rem).map (fun j => i + j) := by
  intro rem
  induction rem with
  | zero => intro i _; rfl
  | succ r ih =>
    intro i hnq
    have hrec := ih (i + 1) (by
      intro j hj m hm
      exact hnq (j + 1) (by omega) m (by rw [show i + (j + 1) = i + 1 + j by omega]; exact hm))
    cases hoc : oc i with
    | ok parts =>
      rw [genLoop, hoc]
      dsimp only
      rw [range_map_add]
      simp [hrec]
    | failure m =>
      have h0 : isQuotaMsg m = false := hnq 0 (by omega) m (by simpa using hoc)
      rw [genLoop, hoc]
      dsimp only
      rw [if_neg (by simp [h0]), range_map_add]
      simp [hrec]

/-- C1: in the Illustrator, a quota-signature failure at prompt `k` sets
the quota-exhausted flag, no generation call is attempted for any prompt
after `k` (the attempted indices are exactly `0..k`), and fewer images
than prompts are returned; with only non-quota failures (such as
PERMISSION_DENIED or API_KEY_INVALID) every capped prompt is attempted,
each failure skipping only its own prompt. -/
theorem generateImages_quota_spec (prompts : List String) (now : Nat)
    (oc1 oc2 : Nat → CallOutcome) (k : Nat)
    (hk : k < (prompts.take 5).length)
    (hq : ∃ m, oc1 k = .failure m ∧ isQuotaMsg m = true)
    (hprev : ∀ j, j < k → ∀ m, oc1 j = .failure m → isQuotaMsg m = false)
    (hnq : ∀ j, j < (prompts.take 5).length → ∀ m, oc2 j = .failure m → isQuotaMsg m = false) :
    (generateImages oc1 prompts now).quotaExhausted = true ∧
    (generateImages oc1 prompts now).attempted = List.range (k + 1) ∧
    (generateImages oc1 prompts now).images.length < prompts.length ∧
    (generateImages oc2 prompts now).attempted = List.range (prompts.take 5).length := by
  have h1 := genLoop_quota oc1 (prompts.take 5) now k 0 (prompts.take 5).length hk
    (by simpa using hq) (by simpa using hprev)
  have h2 := genLoop_no_quota oc2 (prompts.take 5) now (prompts.take 5).length 0
    (by simpa using hnq)
  have e1 : generateImages oc1 prompts now =
      genLoop oc1 (prompts.take 5) now 0 (prompts.take 5).length := rfl
  have e2 : generateImages oc2 prompts now =
      genLoop oc2 (prompts.take 5) now 0 (prompts.take 5).length := rfl
  rw [e1, e2]
  refine ⟨h1.1, ?_, ?_, ?_⟩
  · rw [h1.2.1]
    simp
  · have hle : (prompts.take 5).length ≤ prompts.length := by
      simp [List.length_take]
    have := h1.2.2
    omega
  · rw [h2]
    simp

/-- Concrete witness for `generateImages_quota_spec`. -/
theorem generateImages_quota_spec_witness :
    (generateImages
        (fun i => if i = 1 then .failure "429 RESOURCE_EXHAUSTED" else .ok none)
        ["a", "b", "c"] 0).quotaExhausted = true ∧
    (generateImages
        (fun i => if i = 1 then .failure "429 RESOURCE_EXHAUSTED" else .ok none)
        ["a", "b", "c"] 0).attempted = List.range 2 ∧
    (generateImages
        (fun i => if i = 1 then .failure "429 RESOURCE_EXHAUSTED" else .ok none)
        ["a", "b", "c"] 0).images.length < 3 ∧
    (generateImages (fun _ => .failure "PERMISSION_DENIED")
        ["a", "b", "c"] 0).attempted = List.range 3 := by
  have h := generateImages_quota_spec ["a", "b", "c"] 0
    (fun i => if i = 1 then .failure "429 RESOURCE_EXHAUSTED" else .ok none)
    (fun _ => .failure "PERMISSION_DENIED") 1
    (by decide)
    ⟨"429 RESOURCE_EXHAUSTED", rfl, by decide⟩
    (by
      intro j hj m hm
      have hj0 : j = 0 := by omega
      subst hj0
      rw [show ((fun i => if i = 1 then CallOutcome.failure "429 RESOURCE_EXHAUSTED"
        else CallOutcome.ok none) 0) = CallOutcome.ok none from rfl] at hm
      exact CallOutcome.noConfusion hm)
    (by
      intro j _ m hm
      injection hm with h
      rw [← h]
      decide)
  exact h

/-! ### refineNotebook (part_001 lines 1191-1335) -/

/-- The filter selecting the existing images carried into refinement
(lines 1291-1297): an `image` item holding truthy, non-placeholder
`imageData` (the mime type is NOT checked here). -/
def contentImageFilter (item : NotebookContent) : Bool :=
  item.type == CType.image &&
    (match item.imageData with
     | some d => d != "" && !(jsStartsWith d "placeholder_")
     | none => false)

/-- The "valid image" predicate of the spec's data model applied to a
content item: an image item whose payload is present and not a
placeholder sentinel and whose mime type is not `"image/placeholder"`. -/
def isValidContentImage (item : NotebookContent) : Bool :=
  contentImageFilter item && item.mimeType != some "image/placeholder"

/-- Re-keying one carried image (lines 1298-1304). -/
def mkExistingImage (now idx : Nat) (item : NotebookContent) : GeneratedImage :=
  { id := "img_refined_" ++ toString now ++ "_" ++ toString idx,
    prompt := item.content,
    position := idx,
    base64Data := item.imageData.getD "",
    mimeType :=
      match item.mimeType with
      | none => "image/png"
      | some m => if m = "" then "image/png" else m }

/-- `.map((item, index) => ...)` over the filtered items. -/
def mapExistingImages (now : Nat) : Nat → List NotebookContent → List GeneratedImage
  | _, [] => []
  | idx, it :: rest => mkExistingImage now idx it :: mapExistingImages now (idx + 1) rest

/-- `split(/\s+/).filter((word) => word.length > 0).length`: the number of
maximal non-whitespace runs. -/
def jsCountWords (s : String) : Nat :=
  go s.data false
where
  go : List Char → Bool → Nat
    | [], _ => 0
    | c :: rest, inWord =>
      if c.isWhitespace then go rest false
      else (if inWord then 0 else 1) + go rest true

/-- `refineNotebook` (part_001 lines 1191-1335): `respText` is the text of
the (retry-wrapped) refinement call (`""` models absent text), `now` is
`Date.now()` at refinement time, `rand` the random draws for the content
structurer.  The refinement prompt construction has no functional effect
on the result and is not modelled. -/
def refineNotebook (nb : GeneratedNotebook) (respText : String) (now : Nat)
    (rand : List Bool) : Except String GeneratedNotebook :=
  if respText = "" then
    .error "No refined content generated. Please try again."
  else if (jsTrim respText).length < 50 then
    .error "Received incomplete refined content from Gemini. Please try again."
  else
    let existingImages := mapExistingImages now 0 (nb.content.filter contentImageFilter)
    let refinedContent := parseContentToStructure respText existingImages nb.«structure» rand
    .ok { id := "notebook_refined_" ++ toString now,
          title := nb.title,
          «structure» := nb.«structure»,
          content := refinedContent,
          createdAt := "iso_" ++ toString now,
          totalImages := (existingImages.filter
            (fun img => !(jsStartsWith img.base64Data "placeholder_"))).length,
          wordCount := jsCountWords respText }

/-- A filter over a stronger predicate keeps at most as many elements. -/
theorem filter_length_mono {α : Type} (p q : α → Bool)
    (h : ∀ a, p a = true → q a = true) (l : List α) :
    (l.filter p).length ≤ (l.filter q).length := by
  induction l with
  | nil => simp
  | cons a t ih =>
    by_cases hp : p a = true
    · rw [List.filter_cons_of_pos hp, List.filter_cons_of_pos (h a hp)]
      simpa using ih
    · rw [List.filter_cons_of_neg (by simpa using hp)]
      cases hq : q a with
      | false => rw [List.filter_cons_of_neg (by simp [hq])]; exact ih
      | true =>
        rw [List.filter_cons_of_pos hq]
        exact Nat.le_succ_of_le ih

/-- Every carried image passes the non-placeholder recount, so the
recount equals the number of carried items. -/
theorem mapExistingImages_count (now : Nat) :
    ∀ (l : List NotebookContent) (idx : Nat),
    (∀ it ∈ l, contentImageFilter it = true) →
    ((mapExistingImages now idx l).filter
      (fun img => !(jsStartsWith img.base64Data "placeholder_"))).length = l.length := by
  intro l
  induction l with
  | nil => intro idx _; rfl
  | cons it rest ih =>
    intro idx hall
    have hit : contentImageFilter it = true := hall it (List.mem_cons_self it rest)
    have hdata : jsStartsWith ((mkExistingImage now idx it).base64Data) "placeholder_" = false := by
      unfold contentImageFilter at hit
      cases hid : it.imageData with
      | none => rw [hid] at hit; simp at hit
      | some d =>
        rw [hid] at hit
        simp only [Bool.and_eq_true, Bool.not_eq_true'] at hit
        unfold mkExistingImage
        dsimp only
        rw [hid]
        simpa using hit.2.2
    rw [mapExistingImages, List.filter_cons_of_pos (by simp [hdata])]
    simp only [List.length_cons]
    rw [ih (idx + 1) (fun x hx => hall x (List.mem_cons_of_mem it hx))]

/-- C6 (counterexample): `refineNotebook` derives the new id purely from
the clock (`notebook_refined_<now>`) and never compares it with the
input's id, so a notebook already carrying that id is refined to a
notebook with the SAME id, refuting "the returned id differs from the
input's". -/
theorem refineNotebook_id_cex :
    (refineNotebook
      { id := "notebook_refined_7", title := "T", «structure» := testOutline,
        content := [], createdAt := "iso_0", totalImages := 0, wordCount := 0 }
      "This refined body is certainly long enough to pass the fifty character check."
      7 []).toOption.map GeneratedNotebook.id = some "notebook_refined_7" ∧
    ({ id := "notebook_refined_7", title := "T", «structure» := testOutline,
        content := [], createdAt := "iso_0", totalImages := 0, wordCount := 0 }
      : GeneratedNotebook).id = "notebook_refined_7" :=
  ⟨rfl, rfl⟩

/-- C6 (amended claim): on a non-empty refined text of at least 50 trimmed
characters, `refineNotebook` returns a new notebook whose id is
`notebook_refined_<now>` — distinct from the input's id whenever the
input's id is not already that exact string — whose title and structure
equal the input's, and whose `totalImages` is at least the number of valid
images in the input's content (valid images are carried forward, not
regenerated); the input notebook itself is a pure value and is unchanged. -/
theorem refineNotebook_spec (nb : GeneratedNotebook) (respText : String)
    (now : Nat) (rand : List Bool)
    (h1 : respText ≠ "") (h2 : 50 ≤ (jsTrim respText).length) :
    ∃ r, refineNotebook nb respText now rand = .ok r ∧
      r.id = "notebook_refined_" ++ toString now ∧
      (nb.id ≠ "notebook_refined_" ++ toString now → r.id ≠ nb.id) ∧
      r.title = nb.title ∧
      r.«structure» = nb.«structure» ∧
      (nb.content.filter isValidContentImage).length ≤ r.totalImages := by
  unfold refineNotebook
  rw [if_neg h1, if_neg (by omega)]
  refine ⟨_, rfl, rfl, ?_, rfl, rfl, ?_⟩
  · intro hne hid
    exact hne (hid ▸ rfl)
  · dsimp only
    rw [mapExistingImages_count now (nb.content.filter contentImageFilter) 0
      (fun it hit => (List.mem_filter.mp hit).2)]
    exact filter_length_mono isValidContentImage contentImageFilter
      (fun a ha => by
        unfold isValidContentImage at ha
        simp only [Bool.and_eq_true] at ha
        exact ha.1) nb.content

/-- Concrete witness for `refineNotebook_spec`: a notebook carrying one
valid image and one placeholder image. -/
theorem refineNotebook_spec_witness :
    ∃ r, refineNotebook
      { id := "notebook_5", title := "T", «structure» := testOutline,
        content :=
          [ { type := .image, content := "a diagram", order := 0,
              imageData := some "data:image/png;base64,AAA", mimeType := some "image/png" },
            { type := .image, content := "failed", order := 1,
              imageData := some "placeholder_1", mimeType := some "image/placeholder" } ],
        createdAt := "iso_1", totalImages := 1, wordCount := 2 }
      "This refined body is certainly long enough to pass the fifty character check."
      5 [] = .ok r ∧
      r.id = "notebook_refined_" ++ toString 5 ∧
      (("notebook_5" : String) ≠ "notebook_refined_" ++ toString 5 → r.id ≠ "notebook_5") ∧
      r.title = "T" ∧
      r.«structure» = testOutline ∧
      (([ { type := .image, content := "a diagram", order := 0,
            imageData := some "data:image/png;base64,AAA", mimeType := some "image/png" },
          { type := .image, content := "failed", order := 1,
            imageData := some "placeholder_1", mimeType := some "image/placeholder" } ]
        : List NotebookContent).filter isValidContentImage).length ≤ r.totalImages := by
  have h := refineNotebook_spec
    { id := "notebook_5", title := "T", «structure» := testOutline,
      content :=
        [ { type := .image, content := "a diagram", order := 0,
            imageData := some "data:image/png;base64,AAA", mimeType := some "image/png" },
          { type := .image, content := "failed", order := 1,
            imageData := some "placeholder_1", mimeType := some "image/placeholder" } ],
      createdAt := "iso_1", totalImages := 1, wordCount := 2 }
    "This refined body is certainly long enough to pass the fifty character check."
    5 [] (by decide) (by decide)
  exact h

end Omunotes
